import Mathlib

/-!
Verification of the GimbalProject repository: a generic PID controller
(`Core/Src/PID.cpp`, instantiated at `int`, `long`, `float`, `double`) and a
pair of button interrupt handlers (`Core/Src/eventHandler.c`).

Modelling conventions:
* The integer instantiations of `PIDController<T>` are embedded with
  mathematical `Int` for the fields of type `T`; machine narrowing to 32-bit
  `int` (which `PID.cpp` performs in a few places even for wider `T`) is made
  explicit with `toInt32`, i.e. reduction modulo `2^32` into
  `[-2^31, 2^31)`.
* The three gains `_p, _i, _d` are C `double`s; they are embedded as exact
  rationals (`ℚ`).  Every concrete gain value used in a theorem below is a
  small dyadic rational, on which C double arithmetic is exact.
* The callback pointers `_pidSource`, `_pidOutput`, `_getSystemTime` are
  embedded as opaque tokens (`Nat` identifiers); the values they produce are
  passed to `tick` as explicit arguments (`fb` for the feedback read, `t` for
  the system-time read).
* C integer division truncates toward zero, which is `Int.tdiv`.  The C cast
  `(int)` of a `double` also truncates toward zero (`intTrunc`).  Division by
  a zero `deltaTime` is undefined behaviour in the C code; no theorem below
  exercises it.
* `eventHandler.c` works on `uint32_t` ticks; unsigned 32-bit subtraction is
  `usub32`.
-/

namespace GimbalProject

/-- Unsigned 32-bit subtraction `a - b` on `uint32_t` values (`a`, `b` are
assumed already reduced below `2^32`). -/
def usub32 (a b : Nat) : Nat :=
  (a + (2 ^ 32 - b % 2 ^ 32)) % 2 ^ 32

/-- Embedding of `modeChangeButton` from `eventHandler.c`.  State is the
static `prev_time`; `t` is the value returned by `HAL_GetTick()`.  Returns the
new `prev_time` (always set to `t`) and the flag value raised on the
`stateMachineEvents` group, when one is raised. -/
def modeChangeButton (prev_time t : Nat) : Nat × Option Nat :=
  (t, if usub32 t prev_time > 300 then some 0x69 else none)

/-- Embedding of `setpointButtons` from `eventHandler.c`: unconditionally
raises `0x50` on the `setPointButtonEvents` group. -/
def setpointButtons : Option Nat :=
  some 0x50

/-- State of a `PIDController<T>` (integer instantiation, `T` embedded as
`Int`).  Field names follow `PID.h`/`PID.cpp`; the gains `_p, _i, _d` are
named `gainP, gainI, gainD`, and the three callback pointers are the opaque
tokens `pidSourceId, pidOutputId, timeFnId`. -/
structure PIDState where
  gainP : ℚ
  gainI : ℚ
  gainD : ℚ
  target : Int
  output : Int
  enabled : Bool
  currentFeedback : Int
  lastFeedback : Int
  error : Int
  lastError : Int
  currentTime : Int
  lastTime : Int
  integralCumulation : Int
  maxCumulation : Int
  cycleDerivative : Int
  inputBounded : Bool
  inputLowerBound : Int
  inputUpperBound : Int
  outputBounded : Bool
  outputLowerBound : Int
  outputUpperBound : Int
  feedbackWrapped : Bool
  feedbackWrapLowerBound : Int
  feedbackWrapUpperBound : Int
  timeFunctionRegistered : Bool
  pidSourceId : Nat
  pidOutputId : Nat
  timeFnId : Nat

/-- The constructor `PIDController<T>::PIDController(p, i, d, pidSource,
pidOutput)`.  The C++ constructor leaves `feedbackWrapLowerBound`,
`feedbackWrapUpperBound` and `_getSystemTime` uninitialized; they are set to
zero tokens here and no theorem depends on their initial values. -/
def mkPID (p i d : ℚ) (pidSource pidOutput : Nat) : PIDState :=
  { gainP := p
    gainI := i
    gainD := d
    target := 0
    output := 0
    enabled := true
    currentFeedback := 0
    lastFeedback := 0
    error := 0
    lastError := 0
    currentTime := 0
    lastTime := 0
    integralCumulation := 0
    maxCumulation := 30000
    cycleDerivative := 0
    inputBounded := false
    inputLowerBound := 0
    inputUpperBound := 0
    outputBounded := false
    outputLowerBound := 0
    outputUpperBound := 0
    feedbackWrapped := false
    feedbackWrapLowerBound := 0
    feedbackWrapUpperBound := 0
    timeFunctionRegistered := false
    pidSourceId := pidSource
    pidOutputId := pidOutput
    timeFnId := 0 }

/-- The two sequential `if` clamps used by `tick` for input bounds, the
integral cumulation and output bounds: first trim above `hi`, then trim below
`lo` (in the C code: `if (x > hi) x = hi; if (x < lo) x = lo;`). -/
def boundsClamp (x lo hi : Int) : Int :=
  let a := if x > hi then hi else x
  if a < lo then lo else a

/-- The wrapped-error selection of `PIDController<T>::tick` (PID.cpp lines
90-111), for the `int` instantiation.  `oldError` is the previous value of the
`error` field, kept when none of the three branches fires. -/
def wrappedError (target cf wrapLower wrapUpper oldError : Int) : Int :=
  let regErr := target - cf
  let altErr1 := (target - wrapLower) + (wrapUpper - cf)
  let altErr2 := (wrapUpper - target) + (cf - wrapLower)
  let regErrAbs := if regErr ≥ 0 then regErr else -regErr
  let altErr1Abs := if altErr1 ≥ 0 then altErr1 else -altErr1
  let altErr2Abs := if altErr2 ≥ 0 then altErr2 else -altErr2
  if regErrAbs ≤ altErr1Abs ∧ regErr ≤ altErr2Abs then regErr
  else if altErr1Abs < regErrAbs ∧ altErr1Abs < altErr2Abs then altErr1Abs
  else if altErr2Abs < regErrAbs ∧ altErr2Abs < altErr1Abs then altErr2Abs
  else oldError

/-- Truncation toward zero of a rational, i.e. the C cast `(int)` applied to a
`double` value (defined behaviour only when the result is representable). -/
def intTrunc (q : ℚ) : Int :=
  if 0 ≤ q then ⌊q⌋ else ⌈q⌉

/-- Embedding of `PIDController<T>::tick` (integer instantiation).  `fb` is
the value returned by the `_pidSource()` callback and `t` the value returned
by `_getSystemTime()` (ignored unless a time function is registered).  The
delivered `_pidOutput(output)` value is the `output` field of the result. -/
def tick (fb t : Int) (s : PIDState) : PIDState :=
  if s.enabled then
    let currentFeedback :=
      if s.inputBounded then boundsClamp fb s.inputLowerBound s.inputUpperBound else fb
    let error :=
      if s.feedbackWrapped then
        wrappedError s.target currentFeedback s.feedbackWrapLowerBound
          s.feedbackWrapUpperBound s.error
      else s.target - currentFeedback
    let currentTime := if s.timeFunctionRegistered then t else s.currentTime
    let deltaTime := currentTime - s.lastTime
    let integralRaw :=
      if s.timeFunctionRegistered then
        s.integralCumulation + (s.lastError + Int.tdiv error 2) * deltaTime
      else s.integralCumulation + error
    let cycleDerivative :=
      if s.timeFunctionRegistered then Int.tdiv (error - s.lastError) deltaTime
      else error - s.lastError
    let lastTime := if s.timeFunctionRegistered then currentTime else s.lastTime
    let integralCumulation :=
      boundsClamp integralRaw (-s.maxCumulation) s.maxCumulation
    let outputRaw :=
      intTrunc ((error : ℚ) * s.gainP + (integralCumulation : ℚ) * s.gainI +
        (cycleDerivative : ℚ) * s.gainD)
    let output :=
      if s.outputBounded then
        boundsClamp outputRaw s.outputLowerBound s.outputUpperBound
      else outputRaw
    { s with
      currentFeedback := currentFeedback
      lastFeedback := currentFeedback
      error := error
      lastError := error
      currentTime := currentTime
      lastTime := lastTime
      integralCumulation := integralCumulation
      cycleDerivative := cycleDerivative
      output := output }
  else s

/-- `PIDController<T>::setTarget`. -/
def setTarget (t : Int) (s : PIDState) : PIDState :=
  { s with target := t }

/-- `PIDController<T>::setEnabled`: disabling a previously enabled controller
also zeroes `output` and `integralCumulation`. -/
def setEnabled (e : Bool) (s : PIDState) : PIDState :=
  if !e && s.enabled then
    { s with output := 0, integralCumulation := 0, enabled := e }
  else
    { s with enabled := e }

/-- `PIDController<T>::setMaxIntegralCumulation`: the magnitude is taken, and
values not greater than 1 are silently ignored. -/
def setMaxIntegralCumulation (max : Int) (s : PIDState) : PIDState :=
  let m := if max < 0 then -max else max
  if m > 1 then { s with maxCumulation := m } else s

/-- `PIDController<T>::setInputBounded`. -/
def setInputBounded (bounded : Bool) (s : PIDState) : PIDState :=
  { s with inputBounded := bounded }

/-- `PIDController<T>::setInputBounds`: only takes effect when
`upper > lower`. -/
def setInputBounds (lower upper : Int) (s : PIDState) : PIDState :=
  if upper > lower then
    { s with inputBounded := true, inputUpperBound := upper, inputLowerBound := lower }
  else s

/-- `PIDController<T>::setOutputBounded`. -/
def setOutputBounded (bounded : Bool) (s : PIDState) : PIDState :=
  { s with outputBounded := bounded }

/-- `PIDController<T>::setOutputBounds`: only takes effect when
`upper > lower`. -/
def setOutputBounds (lower upper : Int) (s : PIDState) : PIDState :=
  if upper > lower then
    { s with outputBounded := true, outputLowerBound := lower, outputUpperBound := upper }
  else s

/-- `PIDController<T>::setFeedbackWrapped`. -/
def setFeedbackWrapped (wrapped : Bool) (s : PIDState) : PIDState :=
  { s with feedbackWrapped := wrapped }

/-- `PIDController<T>::setFeedbackWrapBounds`: forwards the pair to
`setInputBounds` (subject to that setter's own guard) and then
unconditionally stores the wrap bounds and enables wrapping. -/
def setFeedbackWrapBounds (lower upper : Int) (s : PIDState) : PIDState :=
  let s1 := setInputBounds lower upper s
  { s1 with
    feedbackWrapped := true
    feedbackWrapLowerBound := lower
    feedbackWrapUpperBound := upper }

/-- `PIDController<T>::setPID`. -/
def setPID (p i d : ℚ) (s : PIDState) : PIDState :=
  { s with gainP := p, gainI := i, gainD := d }

/-- `PIDController<T>::setP`. -/
def setP (p : ℚ) (s : PIDState) : PIDState :=
  { s with gainP := p }

/-- `PIDController<T>::setI`. -/
def setI (i : ℚ) (s : PIDState) : PIDState :=
  { s with gainI := i }

/-- `PIDController<T>::setD`. -/
def setD (d : ℚ) (s : PIDState) : PIDState :=
  { s with gainD := d }

/-- `PIDController<T>::setPIDSource` (pointer modelled as a token). -/
def setPIDSource (src : Nat) (s : PIDState) : PIDState :=
  { s with pidSourceId := src }

/-- `PIDController<T>::setPIDOutput` (pointer modelled as a token). -/
def setPIDOutput (out : Nat) (s : PIDState) : PIDState :=
  { s with pidOutputId := out }

/-- `PIDController<T>::registerTimeFunction`. -/
def registerTimeFunction (f : Nat) (s : PIDState) : PIDState :=
  { s with timeFnId := f, timeFunctionRegistered := true }

/-- One invocation of a public mutating operation of `PIDController<T>`,
used to quantify over arbitrary call sequences. -/
inductive PIDOp where
  | opTick (fb t : Int)
  | opSetTarget (x : Int)
  | opSetEnabled (e : Bool)
  | opSetMaxIntegralCumulation (m : Int)
  | opSetInputBounded (b : Bool)
  | opSetInputBounds (lo hi : Int)
  | opSetOutputBounded (b : Bool)
  | opSetOutputBounds (lo hi : Int)
  | opSetFeedbackWrapped (b : Bool)
  | opSetFeedbackWrapBounds (lo hi : Int)
  | opSetPID (p i d : ℚ)
  | opSetP (p : ℚ)
  | opSetI (i : ℚ)
  | opSetD (d : ℚ)
  | opSetPIDSource (src : Nat)
  | opSetPIDOutput (out : Nat)
  | opRegisterTimeFunction (f : Nat)

/-- Interpretation of one operation. -/
def applyOp (op : PIDOp) (s : PIDState) : PIDState :=
  match op with
  | .opTick fb t => tick fb t s
  | .opSetTarget x => setTarget x s
  | .opSetEnabled e => setEnabled e s
  | .opSetMaxIntegralCumulation m => setMaxIntegralCumulation m s
  | .opSetInputBounded b => setInputBounded b s
  | .opSetInputBounds lo hi => setInputBounds lo hi s
  | .opSetOutputBounded b => setOutputBounded b s
  | .opSetOutputBounds lo hi => setOutputBounds lo hi s
  | .opSetFeedbackWrapped b => setFeedbackWrapped b s
  | .opSetFeedbackWrapBounds lo hi => setFeedbackWrapBounds lo hi s
  | .opSetPID p i d => setPID p i d s
  | .opSetP p => setP p s
  | .opSetI i => setI i s
  | .opSetD d => setD d s
  | .opSetPIDSource src => setPIDSource src s
  | .opSetPIDOutput out => setPIDOutput out s
  | .opRegisterTimeFunction f => registerTimeFunction f s

/-- Interpretation of a call sequence, first operation first. -/
def runOps (ops : List PIDOp) (s : PIDState) : PIDState :=
  ops.foldl (fun s op => applyOp op s) s

/-- Iterated ticks: each list element is a `(feedback, time)` pair. -/
def runTicks (l : List (Int × Int)) (s : PIDState) : PIDState :=
  l.foldl (fun s p => tick p.1 p.2 s) s

/-- Reduction of a wide (`long`) value to C `int`, i.e. modulo `2^32` into
`[-2^31, 2^31)`. -/
def toInt32 (x : Int) : Int :=
  (x + 2 ^ 31) % 2 ^ 32 - 2 ^ 31

/-- The wrapped-error selection of `tick` as compiled for the wide (`long`)
instantiation: the local variables `regErr`, `altErr1`, `altErr2` are declared
`int` in PID.cpp, so each candidate is narrowed to 32 bits before the
selection, even though `target`, `currentFeedback` and the wrap bounds are
`long`. -/
def wrappedErrorWide (target cf wrapLower wrapUpper oldError : Int) : Int :=
  let regErr := toInt32 (target - cf)
  let altErr1 := toInt32 ((target - wrapLower) + (wrapUpper - cf))
  let altErr2 := toInt32 ((wrapUpper - target) + (cf - wrapLower))
  let regErrAbs := if regErr ≥ 0 then regErr else -regErr
  let altErr1Abs := if altErr1 ≥ 0 then altErr1 else -altErr1
  let altErr2Abs := if altErr2 ≥ 0 then altErr2 else -altErr2
  if regErrAbs ≤ altErr1Abs ∧ regErr ≤ altErr2Abs then regErr
  else if altErr1Abs < regErrAbs ∧ altErr1Abs < altErr2Abs then altErr1Abs
  else if altErr2Abs < regErrAbs ∧ altErr2Abs < altErr1Abs then altErr2Abs
  else oldError

/-- The per-cycle integral increment `(lastError + error / 2) * deltaTime` as
compiled for the wide instantiation: the local `cycleIntegral` is declared
`int`, so the `long` product is narrowed to 32 bits. -/
def cycleIntegralWide (lastError error deltaTime : Int) : Int :=
  toInt32 ((lastError + Int.tdiv error 2) * deltaTime)

/-- Modelled from the spec (claim wording): rounding a real value to the
nearest integer, used to compare against the code's truncating `(int)` cast.
Half-integers round up; no theorem below evaluates it at a half-integer. -/
def roundNearest (q : ℚ) : Int :=
  ⌊q + 1 / 2⌋

/-- Clamping into the degenerate interval `[0, 0]` forces the value to `0`. -/
theorem boundsClamp_zero (x : Int) : boundsClamp x 0 0 = 0 := by
  simp only [boundsClamp]
  split <;> split <;> omega

/-- The two sequential clamps of the integral cumulation keep it inside
`[-m, m]` whenever `0 ≤ m`. -/
theorem boundsClamp_mem (x m : Int) (hm : 0 ≤ m) :
    -m ≤ boundsClamp x (-m) m ∧ boundsClamp x (-m) m ≤ m := by
  simp only [boundsClamp]
  constructor <;> (split <;> split <;> omega)

/-- `tick` never writes to the configuration fields: target, gains, enabled
flag, integral cap, all bound values and flags, wrap configuration, time-source
registration, or the three callback tokens. -/
theorem tick_config_eq (fb t : Int) (s : PIDState) :
    (tick fb t s).gainP = s.gainP ∧
    (tick fb t s).gainI = s.gainI ∧
    (tick fb t s).gainD = s.gainD ∧
    (tick fb t s).target = s.target ∧
    (tick fb t s).enabled = s.enabled ∧
    (tick fb t s).maxCumulation = s.maxCumulation ∧
    (tick fb t s).inputBounded = s.inputBounded ∧
    (tick fb t s).inputLowerBound = s.inputLowerBound ∧
    (tick fb t s).inputUpperBound = s.inputUpperBound ∧
    (tick fb t s).outputBounded = s.outputBounded ∧
    (tick fb t s).outputLowerBound = s.outputLowerBound ∧
    (tick fb t s).outputUpperBound = s.outputUpperBound ∧
    (tick fb t s).feedbackWrapped = s.feedbackWrapped ∧
    (tick fb t s).feedbackWrapLowerBound = s.feedbackWrapLowerBound ∧
    (tick fb t s).feedbackWrapUpperBound = s.feedbackWrapUpperBound ∧
    (tick fb t s).timeFunctionRegistered = s.timeFunctionRegistered ∧
    (tick fb t s).pidSourceId = s.pidSourceId ∧
    (tick fb t s).pidOutputId = s.pidOutputId ∧
    (tick fb t s).timeFnId = s.timeFnId := by
  by_cases h : s.enabled <;> simp [tick, h]

/-- Iterated `tick`s preserve the enabled flag and the input/output bound
configuration. -/
theorem runTicks_config (tks : List (Int × Int)) (s : PIDState) :
    (runTicks tks s).enabled = s.enabled ∧
    (runTicks tks s).inputBounded = s.inputBounded ∧
    (runTicks tks s).inputLowerBound = s.inputLowerBound ∧
    (runTicks tks s).inputUpperBound = s.inputUpperBound ∧
    (runTicks tks s).outputBounded = s.outputBounded ∧
    (runTicks tks s).outputLowerBound = s.outputLowerBound ∧
    (runTicks tks s).outputUpperBound = s.outputUpperBound := by
  induction tks generalizing s with
  | nil => exact ⟨rfl, rfl, rfl, rfl, rfl, rfl, rfl⟩
  | cons hd tl ih =>
    obtain ⟨_, _, _, _, he, _, hib, hil, hiu, hob, hol, hou, _, _, _, _, _, _, _⟩ :=
      tick_config_eq hd.1 hd.2 s
    obtain ⟨ie, iib, iil, iiu, iob, iol, iou⟩ := ih (tick hd.1 hd.2 s)
    exact ⟨ie.trans he, iib.trans hib, iil.trans hil, iiu.trans hiu,
      iob.trans hob, iol.trans hol, iou.trans hou⟩

/-- With input bounding active on the interval `[0, 0]`, an enabled `tick`
forces `currentFeedback` to `0`. -/
theorem tick_currentFeedback_zero (fb t : Int) (s : PIDState)
    (he : s.enabled = true) (hib : s.inputBounded = true)
    (hil : s.inputLowerBound = 0) (hiu : s.inputUpperBound = 0) :
    (tick fb t s).currentFeedback = 0 := by
  simp [tick, he, hib, hil, hiu, boundsClamp_zero]

/-- With output bounding active on the interval `[0, 0]`, an enabled `tick`
forces `output` to `0`. -/
theorem tick_output_zero (fb t : Int) (s : PIDState)
    (he : s.enabled = true) (hob : s.outputBounded = true)
    (hol : s.outputLowerBound = 0) (hou : s.outputUpperBound = 0) :
    (tick fb t s).output = 0 := by
  simp [tick, he, hob, hol, hou, boundsClamp_zero]

/-- Every public operation keeps `maxCumulation` strictly greater than `1`. -/
theorem applyOp_maxCumulation (op : PIDOp) (s : PIDState)
    (h : 1 < s.maxCumulation) : 1 < (applyOp op s).maxCumulation := by
  cases op with
  | opTick fb t => exact ((tick_config_eq fb t s).2.2.2.2.2.1).symm ▸ h
  | opSetMaxIntegralCumulation m =>
    simp only [applyOp, setMaxIntegralCumulation]
    split <;>
      (split
       next hgt => simpa using hgt
       next => exact h)
  | opSetEnabled e =>
    simp only [applyOp, setEnabled]
    split <;> exact h
  | opSetInputBounds lo hi =>
    simp only [applyOp, setInputBounds]
    split <;> exact h
  | opSetOutputBounds lo hi =>
    simp only [applyOp, setOutputBounds]
    split <;> exact h
  | opSetFeedbackWrapBounds lo hi =>
    simp only [applyOp, setFeedbackWrapBounds, setInputBounds]
    split <;> exact h
  | _ => exact h

/-- Call sequences keep `maxCumulation` strictly greater than `1`. -/
theorem runOps_maxCumulation (ops : List PIDOp) (s : PIDState)
    (h : 1 < s.maxCumulation) : 1 < (runOps ops s).maxCumulation := by
  induction ops generalizing s with
  | nil => exact h
  | cons op rest ih => exact ih (applyOp op s) (applyOp_maxCumulation op s h)

/-- Unsigned 32-bit subtraction agrees with truncated `Nat` subtraction on
in-range, ordered arguments. -/
theorem usub32_eq (a b : Nat) (hb : b ≤ a) (ha : a < 2 ^ 32) :
    usub32 a b = a - b := by
  have h1 : b % 2 ^ 32 = b := Nat.mod_eq_of_lt (Nat.lt_of_le_of_lt hb ha)
  have h2 : a + (2 ^ 32 - b) = (a - b) + 2 ^ 32 := by omega
  rw [usub32, h1, h2, Nat.add_mod_right, Nat.mod_eq_of_lt (by omega)]

/-- Narrowing to 32-bit `int` is the identity on values already in
`[-2^31, 2^31)`. -/
theorem toInt32_eq_self (x : Int) (h1 : -(2 ^ 31) ≤ x) (h2 : x < 2 ^ 31) :
    toInt32 x = x := by
  simp only [toInt32]
  omega

/-- Claim C1 (evidence of the code bug): at target `0`, feedback `10` and wrap
bounds stored by `setFeedbackWrapBounds(13, 0)`, the enabled wrapped tick
assigns `error = -10`, the signed direct error, even though the three
candidates' absolute values are `10`, `23` and `3`, so `|regErr|` is not
minimal (`altErr2Abs = 3` is).  The first selection branch compares the signed
`regErr` — not `regErrAbs` — against `altErr2Abs`, contradicting the code's
own comment that the branch fires when `regErrAbs` is smallest. -/
theorem wrapped_selection_signed_compare_bug :
    (tick 10 0 (setFeedbackWrapBounds 13 0 (mkPID 1 0 0 0 0))).error = -10 ∧
    wrappedError 0 10 13 0 0 = -10 ∧
    (if ((0 : Int) - 10) ≥ 0 then (0 : Int) - 10 else -((0 : Int) - 10)) = 10 ∧
    (if (((0 : Int) - 13) + (0 - 10)) ≥ 0 then ((0 : Int) - 13) + (0 - 10)
      else -(((0 : Int) - 13) + (0 - 10))) = 23 ∧
    (if (((0 : Int) - 0) + (10 - 13)) ≥ 0 then ((0 : Int) - 0) + (10 - 13)
      else -(((0 : Int) - 0) + (10 - 13))) = 3 ∧
    (3 : Int) < 10 := by
  decide

/-- Claim C2 counterexample: invocations at ticks 301, 400 and 650 realize the
claim's scenario (second within 300 of the first, third more than 300 after
the first but within 300 of the second), yet the third invocation does not
raise the `0x69` signal — `prev_time` was updated to 400 by the second
invocation, so the third elapsed time is only 250. -/
theorem modeChange_third_invocation_silent :
    (400 : Nat) - 301 < 300 ∧ 300 < (650 : Nat) - 301 ∧ (650 : Nat) - 400 < 300 ∧
    (modeChangeButton 0 301).2 = some 0x69 ∧
    (modeChangeButton (modeChangeButton 0 301).1 400).2 = none ∧
    (modeChangeButton (modeChangeButton (modeChangeButton 0 301).1 400).1 650).2 = none := by
  decide

/-- Claim C2 as amended: when the first invocation fires (tick above 300 from
the zero baseline) and the second follows within 300 units, only the first of
the two raises `0x69`; a third invocation more than 300 units after the first
but within 300 units of the second does NOT raise the signal, because
`prev_time` is updated on every invocation and the threshold is therefore
always measured from the immediately preceding invocation. -/
theorem modeChange_debounce (t1 t2 t3 : Nat)
    (h1 : t1 < 2 ^ 32) (h2 : t2 < 2 ^ 32) (h3 : t3 < 2 ^ 32)
    (h12 : t1 ≤ t2) (h23 : t2 ≤ t3)
    (hfirst : 300 < t1) (hclose12 : t2 - t1 < 300)
    (hfar13 : 300 < t3 - t1) (hclose23 : t3 - t2 < 300) :
    (modeChangeButton 0 t1).2 = some 0x69 ∧
    (modeChangeButton (modeChangeButton 0 t1).1 t2).2 = none ∧
    (modeChangeButton (modeChangeButton (modeChangeButton 0 t1).1 t2).1 t3).2 = none := by
  have e1 : (modeChangeButton 0 t1).1 = t1 := rfl
  have e2 : (modeChangeButton (modeChangeButton 0 t1).1 t2).1 = t2 := rfl
  refine ⟨?_, ?_, ?_⟩
  · simp only [modeChangeButton, usub32_eq t1 0 (Nat.zero_le t1) h1]
    rw [if_pos (by omega)]
  · simp only [modeChangeButton, e1, usub32_eq t2 t1 h12 h2]
    rw [if_neg (by omega)]
  · simp only [modeChangeButton, e2, usub32_eq t3 t2 h23 h3]
    rw [if_neg (by omega)]

/-- Claim C2 witness: the amended debounce behaviour at ticks 301, 400, 650. -/
theorem modeChange_debounce_witness :
    (modeChangeButton 0 301).2 = some 0x69 ∧
    (modeChangeButton (modeChangeButton 0 301).1 400).2 = none ∧
    (modeChangeButton (modeChangeButton (modeChangeButton 0 301).1 400).1 650).2 = none :=
  modeChange_debounce 301 400 650 (by decide) (by decide) (by decide) (by decide)
    (by decide) (by decide) (by decide) (by decide) (by decide)

/-- Claim C3 counterexample: on a freshly initialized dispatcher
(`prev_time = 0`), an invocation at tick 100 does not raise `0x69`, refuting
"raises regardless of the host tick value": `100 - 0` does not exceed the
300-unit threshold. -/
theorem modeChange_first_small_tick_silent :
    (modeChangeButton 0 100).2 = none := by
  decide

/-- Claim C3 as amended: on a freshly initialized dispatcher
(`prev_time = 0`), the first invocation raises `0x69` exactly when the host
tick value exceeds 300 — so for every tick value greater than 300, not for
every tick value. -/
theorem modeChange_first_invocation_fires (t : Nat) (ht : t < 2 ^ 32)
    (h300 : 300 < t) :
    (modeChangeButton 0 t).2 = some 0x69 := by
  simp only [modeChangeButton, usub32_eq t 0 (Nat.zero_le t) ht]
  rw [if_pos (by omega)]

/-- Claim C3 witness: the first invocation at tick 500 raises `0x69`. -/
theorem modeChange_first_invocation_fires_witness :
    (modeChangeButton 0 500).2 = some 0x69 :=
  modeChange_first_invocation_fires 500 (by decide) (by decide)

/-- Claim C4 counterexample: a tick driving `integralCumulation` to 500
followed by `setMaxIntegralCumulation(100)` leaves `integralCumulation = 500`
above the new cap `maxCumulation = 100`: the cap setter does not re-clamp the
stored cumulation. -/
theorem integral_cap_not_reclamped :
    (setMaxIntegralCumulation 100 (tick (-500) 0 (mkPID 1 1 1 0 0))).integralCumulation = 500 ∧
    (setMaxIntegralCumulation 100 (tick (-500) 0 (mkPID 1 1 1 0 0))).maxCumulation = 100 ∧
    ¬((setMaxIntegralCumulation 100 (tick (-500) 0 (mkPID 1 1 1 0 0))).integralCumulation ≤
      (setMaxIntegralCumulation 100 (tick (-500) 0 (mkPID 1 1 1 0 0))).maxCumulation) := by
  decide

/-- Claim C4 as amended: after every sequence of public operations
`maxCumulation` is positive and greater than 1; and `integralCumulation` lies
within `[-maxCumulation, +maxCumulation]` after construction and after every
enabled tick (the clamp at the end of `tick`).  The containment is not an
invariant of every operation: `setMaxIntegralCumulation` can lower the cap
below the current cumulation, which stays out of range until the next enabled
tick re-clamps it. -/
theorem maxCumulation_invariant :
    (∀ (p i d : ℚ) (src out : Nat) (ops : List PIDOp),
      1 < (runOps ops (mkPID p i d src out)).maxCumulation) ∧
    (∀ (s : PIDState) (fb t : Int), s.enabled = true → 0 ≤ s.maxCumulation →
      -(tick fb t s).maxCumulation ≤ (tick fb t s).integralCumulation ∧
      (tick fb t s).integralCumulation ≤ (tick fb t s).maxCumulation) := by
  constructor
  · intro p i d src out ops
    exact runOps_maxCumulation ops (mkPID p i d src out) (by simp [mkPID])
  · intro s fb t he hm
    have hmax : (tick fb t s).maxCumulation = s.maxCumulation :=
      (tick_config_eq fb t s).2.2.2.2.2.1
    rw [hmax]
    simp only [tick, he, if_true]
    exact boundsClamp_mem _ _ hm

/-- Claim C4 witness: the amended invariant at a fresh controller (empty
sequence) and at one enabled tick. -/
theorem maxCumulation_invariant_witness :
    1 < (runOps [] (mkPID 1 0 0 0 0)).maxCumulation ∧
    (-(tick 5 0 (mkPID 1 0 0 0 0)).maxCumulation ≤
        (tick 5 0 (mkPID 1 0 0 0 0)).integralCumulation ∧
      (tick 5 0 (mkPID 1 0 0 0 0)).integralCumulation ≤
        (tick 5 0 (mkPID 1 0 0 0 0)).maxCumulation) :=
  ⟨maxCumulation_invariant.1 1 0 0 0 0 [],
   maxCumulation_invariant.2 (mkPID 1 0 0 0 0) 5 0 rfl (by decide)⟩

/-- Claim C5 counterexample: for the wide (`long`) instantiation with
`target = 2^32 + 5`, feedback `0` and wrap bounds `[0, 10]`, the code's
wrapped-error computation (whose candidate locals are `int`) yields `5`, while
computation carried out in the representation `T` yields `4294967291` — the
arithmetic is not performed in `T`. -/
theorem wide_wrapped_error_narrowed :
    wrappedErrorWide 4294967301 0 0 10 0 = 5 ∧
    wrappedError 4294967301 0 0 10 0 = 4294967291 ∧
    (5 : Int) ≠ 4294967291 := by
  decide

/-- Claim C5 as amended: in the wide instantiation the wrapped-error
candidates and the per-cycle integral increment pass through 32-bit `int`
locals; the claim's all-`T` arithmetic describes the code exactly when those
`int`-typed intermediates lie within `[-2^31, 2^31)`. -/
theorem wide_arithmetic_in_range :
    (∀ target cf wrapLower wrapUpper oldError : Int,
      -(2 ^ 31) ≤ target - cf → target - cf < 2 ^ 31 →
      -(2 ^ 31) ≤ (target - wrapLower) + (wrapUpper - cf) →
      (target - wrapLower) + (wrapUpper - cf) < 2 ^ 31 →
      -(2 ^ 31) ≤ (wrapUpper - target) + (cf - wrapLower) →
      (wrapUpper - target) + (cf - wrapLower) < 2 ^ 31 →
      wrappedErrorWide target cf wrapLower wrapUpper oldError =
        wrappedError target cf wrapLower wrapUpper oldError) ∧
    (∀ lastError error deltaTime : Int,
      -(2 ^ 31) ≤ (lastError + Int.tdiv error 2) * deltaTime →
      (lastError + Int.tdiv error 2) * deltaTime < 2 ^ 31 →
      cycleIntegralWide lastError error deltaTime =
        (lastError + Int.tdiv error 2) * deltaTime) := by
  constructor
  · intro target cf wl wu e0 ha1 ha2 hb1 hb2 hc1 hc2
    simp only [wrappedErrorWide, wrappedError,
      toInt32_eq_self _ ha1 ha2, toInt32_eq_self _ hb1 hb2, toInt32_eq_self _ hc1 hc2]
  · intro le err dt hd1 hd2
    simp only [cycleIntegralWide, toInt32_eq_self _ hd1 hd2]

/-- Claim C5 witness: the in-range agreement at small concrete inputs. -/
theorem wide_arithmetic_in_range_witness :
    wrappedErrorWide 5 0 0 10 0 = wrappedError 5 0 0 10 0 ∧
    cycleIntegralWide 1 2 3 = (1 + Int.tdiv 2 2) * 3 :=
  ⟨wide_arithmetic_in_range.1 5 0 0 10 0 (by decide) (by decide) (by decide)
      (by decide) (by decide) (by decide),
   wide_arithmetic_in_range.2 1 2 3 (by decide) (by decide)⟩

/-- Claim C6 counterexample: with gain `p = 3/4` (exact in double precision),
target `1` and feedback `0`, the enabled tick stores `output = 0`, although
the weighted sum is `3/4` and rounding to the nearest integer gives `1`: the
C cast `(int)` truncates toward zero instead of rounding. -/
theorem output_cast_truncates :
    (tick 0 0 (setTarget 1 (mkPID (3 / 4) 0 0 0 0))).output = 0 ∧
    ((tick 0 0 (setTarget 1 (mkPID (3 / 4) 0 0 0 0))).error : ℚ) * (3 / 4) +
      ((tick 0 0 (setTarget 1 (mkPID (3 / 4) 0 0 0 0))).integralCumulation : ℚ) * 0 +
      ((tick 0 0 (setTarget 1 (mkPID (3 / 4) 0 0 0 0))).cycleDerivative : ℚ) * 0 = 3 / 4 ∧
    roundNearest (3 / 4) = 1 ∧ (0 : Int) ≠ 1 := by
  refine ⟨?_, ?_, ?_, by decide⟩
  · norm_num [tick, setTarget, mkPID, boundsClamp, intTrunc]
  · norm_num [tick, setTarget, mkPID, boundsClamp]
  · norm_num [roundNearest]

/-- Claim C6 as amended: for every enabled tick with output bounds inactive,
the stored output equals the weighted sum
`error * p + integralCumulation * i + cycleDerivative * d` truncated toward
zero (the C `(int)` cast), not rounded to the nearest integer. -/
theorem output_truncated_sum (s : PIDState) (fb t : Int)
    (he : s.enabled = true) (hb : s.outputBounded = false) :
    (tick fb t s).output =
      intTrunc (((tick fb t s).error : ℚ) * s.gainP +
        ((tick fb t s).integralCumulation : ℚ) * s.gainI +
        ((tick fb t s).cycleDerivative : ℚ) * s.gainD) := by
  simp [tick, he, hb]

/-- Claim C6 witness: the truncated-sum relation at one concrete tick. -/
theorem output_truncated_sum_witness :
    (tick 3 0 (mkPID 1 1 1 0 0)).output =
      intTrunc (((tick 3 0 (mkPID 1 1 1 0 0)).error : ℚ) * (mkPID 1 1 1 0 0).gainP +
        ((tick 3 0 (mkPID 1 1 1 0 0)).integralCumulation : ℚ) * (mkPID 1 1 1 0 0).gainI +
        ((tick 3 0 (mkPID 1 1 1 0 0)).cycleDerivative : ℚ) * (mkPID 1 1 1 0 0).gainD) :=
  output_truncated_sum (mkPID 1 1 1 0 0) 3 0 rfl rfl

/-- Claim C7: disabling a previously enabled controller zeroes `output` and
`integralCumulation` and clears `enabled`; a subsequent `setEnabled(true)`
only flips the flag back — it restores nothing and performs no other reset. -/
theorem disable_resets_state (s : PIDState) (h : s.enabled = true) :
    (setEnabled false s).output = 0 ∧
    (setEnabled false s).integralCumulation = 0 ∧
    (setEnabled false s).enabled = false ∧
    setEnabled true (setEnabled false s) =
      { setEnabled false s with enabled := true } := by
  refine ⟨?_, ?_, ?_, ?_⟩ <;> simp [setEnabled, h]

/-- Claim C7 witness: disable-then-re-enable after a tick that produced
non-zero output and integral cumulation. -/
theorem disable_resets_state_witness :
    (setEnabled false (tick 0 0 (setTarget 7 (mkPID 1 1 0 0 0)))).output = 0 ∧
    (setEnabled false (tick 0 0 (setTarget 7 (mkPID 1 1 0 0 0)))).integralCumulation = 0 ∧
    (setEnabled false (tick 0 0 (setTarget 7 (mkPID 1 1 0 0 0)))).enabled = false ∧
    setEnabled true (setEnabled false (tick 0 0 (setTarget 7 (mkPID 1 1 0 0 0)))) =
      { setEnabled false (tick 0 0 (setTarget 7 (mkPID 1 1 0 0 0))) with enabled := true } :=
  disable_resets_state (tick 0 0 (setTarget 7 (mkPID 1 1 0 0 0))) (by decide)

/-- Claim C8: a bound setter called with `upper ≤ lower` leaves the whole
controller state unchanged (no flag, no bound value, no error report); called
with `upper > lower` it stores both bounds and sets the corresponding bounded
flag. -/
theorem bound_setters_validation (s : PIDState) (lo hi : Int) :
    (hi ≤ lo → setInputBounds lo hi s = s ∧ setOutputBounds lo hi s = s) ∧
    (lo < hi →
      setInputBounds lo hi s =
        { s with inputBounded := true, inputUpperBound := hi, inputLowerBound := lo } ∧
      setOutputBounds lo hi s =
        { s with outputBounded := true, outputLowerBound := lo, outputUpperBound := hi }) := by
  constructor
  · intro hle
    constructor <;> (simp only [setInputBounds, setOutputBounds]; rw [if_neg (by omega)])
  · intro hlt
    constructor <;> (simp only [setInputBounds, setOutputBounds]; rw [if_pos (by omega)])

/-- Claim C8 witness: the inverted range `(100, 50)` is ignored by both
setters, and the valid range `(5, 99)` is stored with the flag set. -/
theorem bound_setters_validation_witness :
    (setInputBounds 100 50 (mkPID 1 0 0 0 0) = mkPID 1 0 0 0 0 ∧
      setOutputBounds 100 50 (mkPID 1 0 0 0 0) = mkPID 1 0 0 0 0) ∧
    (setInputBounds 5 99 (mkPID 1 0 0 0 0) =
        { mkPID 1 0 0 0 0 with
            inputBounded := true, inputUpperBound := 99, inputLowerBound := 5 } ∧
      setOutputBounds 5 99 (mkPID 1 0 0 0 0) =
        { mkPID 1 0 0 0 0 with
            outputBounded := true, outputLowerBound := 5, outputUpperBound := 99 }) :=
  ⟨(bound_setters_validation (mkPID 1 0 0 0 0) 100 50).1 (by decide),
   (bound_setters_validation (mkPID 1 0 0 0 0) 5 99).2 (by decide)⟩

/-- Claim C9: on a freshly constructed controller whose bound setters never
succeeded, `setInputBounded(true)` (respectively `setOutputBounded(true)`)
makes every subsequent enabled tick clamp `currentFeedback` (respectively
`output`) into the default interval `[0, 0]`, forcing it to exactly `0` —
the flag toggles perform no validation and the constructor zero-initializes
the bound values. -/
theorem default_zero_bounds_clamp (p i d : ℚ) (src out : Nat)
    (tks : List (Int × Int)) (fb t : Int) :
    (tick fb t (runTicks tks (setInputBounded true (mkPID p i d src out)))).currentFeedback = 0 ∧
    (tick fb t (runTicks tks (setOutputBounded true (mkPID p i d src out)))).output = 0 := by
  constructor
  · obtain ⟨he, hib, hil, hiu, _, _, _⟩ :=
      runTicks_config tks (setInputBounded true (mkPID p i d src out))
    exact tick_currentFeedback_zero fb t _ (he.trans rfl) (hib.trans rfl)
      (hil.trans rfl) (hiu.trans rfl)
  · obtain ⟨he, _, _, _, hob, hol, hou⟩ :=
      runTicks_config tks (setOutputBounded true (mkPID p i d src out))
    exact tick_output_zero fb t _ (he.trans rfl) (hob.trans rfl)
      (hol.trans rfl) (hou.trans rfl)

/-- Claim C10: `tick` (enabled or disabled) never changes `target`, the three
gains, `enabled`, `maxCumulation`, any input/output/wrap bound value or flag,
`timeFunctionRegistered`, or the three registered callback pointers; it
mutates only the feedback, error, integral, derivative, time and output
fields. -/
theorem tick_frame_condition (s : PIDState) (fb t : Int) :
    (tick fb t s).target = s.target ∧
    (tick fb t s).gainP = s.gainP ∧
    (tick fb t s).gainI = s.gainI ∧
    (tick fb t s).gainD = s.gainD ∧
    (tick fb t s).enabled = s.enabled ∧
    (tick fb t s).maxCumulation = s.maxCumulation ∧
    (tick fb t s).inputBounded = s.inputBounded ∧
    (tick fb t s).inputLowerBound = s.inputLowerBound ∧
    (tick fb t s).inputUpperBound = s.inputUpperBound ∧
    (tick fb t s).outputBounded = s.outputBounded ∧
    (tick fb t s).outputLowerBound = s.outputLowerBound ∧
    (tick fb t s).outputUpperBound = s.outputUpperBound ∧
    (tick fb t s).feedbackWrapped = s.feedbackWrapped ∧
    (tick fb t s).feedbackWrapLowerBound = s.feedbackWrapLowerBound ∧
    (tick fb t s).feedbackWrapUpperBound = s.feedbackWrapUpperBound ∧
    (tick fb t s).timeFunctionRegistered = s.timeFunctionRegistered ∧
    (tick fb t s).pidSourceId = s.pidSourceId ∧
    (tick fb t s).pidOutputId = s.pidOutputId ∧
    (tick fb t s).timeFnId = s.timeFnId := by
  by_cases h : s.enabled <;> simp [tick, h]

end GimbalProject
